import Mathlib

/-!
# ArchEval decision engine — shallow embedding

Embedding of the SLM-vs-LLM decision engine of the ArchEval repository:
the static question tables of `src/types.ts` (`GATEKEEPER_QUESTIONS`,
`SCORED_QUESTIONS`, `MAX_POSSIBLE_SCORE`, `SCORING_THRESHOLD`) and the
decision/scoring logic of `handleAssessmentSubmit` in `src/App.tsx`
(gatekeeper pass, weighted scoring pass, threshold resolution).

Likert responses are JavaScript numbers in the source; the engine performs
integer arithmetic on them with no clamping, so they are embedded as `Int`
(arbitrary, possibly out-of-range, values are representable).  UI-only
fields of the question tables (`label`, `subLabel`, `text`, `type`) are
omitted: the engine never reads them.
-/

namespace ArchEval

/-- `ModelChoice` enum from `src/types.ts`. -/
inductive ModelChoice where
  | SLM
  | LLM
deriving DecidableEq, Repr

/-- The three-valued `g5_externalApi` field (`src/types.ts`). -/
inductive ExternalApi where
  | not_acceptable
  | risk_mitigation
  | fully_acceptable
deriving DecidableEq, Repr

/-- `FormData` interface from `src/types.ts`: free-text metadata, the seven
gatekeeper answers and the fourteen Likert responses. -/
structure FormData where
  userName : String
  email : String
  companyName : String
  projectName : String
  projectDescription : String
  g1_edge : Bool
  g2_offline : Bool
  g3_dataResidency : Bool
  g4_regulatory : Bool
  g5_externalApi : ExternalApi
  g6_infraRefusal : Bool
  g7_timeToMarket : Bool
  s1_latency : Int
  s2_volume : Int
  s3_cost : Int
  s4_longevity : Int
  s5_narrowness : Int
  s6_domain : Int
  s7_determinism : Int
  s8_explainability : Int
  s9_readiness : Int
  s10_maintenance : Int
  s11_investment : Int
  s12_breadth : Int
  s13_experimentation : Int
  s14_lowVolume : Int
deriving DecidableEq, Repr

/-- One entry of `GATEKEEPER_QUESTIONS` (`src/types.ts`).  The dynamic
string-keyed access `data[q.id]` of the source is embedded as the accessor
function `value`. -/
structure GatekeeperQuestion where
  id : String
  value : FormData → Bool
  forceDecision : ModelChoice
  hardBlockerText : String

/-- `GATEKEEPER_QUESTIONS` from `src/types.ts`, in declared order
(g5 is a select handled separately in UI logic and is absent, as in the
source). -/
def GATEKEEPER_QUESTIONS : List GatekeeperQuestion :=
  [ { id := "g1_edge", value := FormData.g1_edge,
      forceDecision := ModelChoice.SLM,
      hardBlockerText := "On-device or edge deployment requirement" },
    { id := "g2_offline", value := FormData.g2_offline,
      forceDecision := ModelChoice.SLM,
      hardBlockerText := "Offline or limited connectivity requirement" },
    { id := "g3_dataResidency", value := FormData.g3_dataResidency,
      forceDecision := ModelChoice.SLM,
      hardBlockerText := "Internal-only data and inference requirement" },
    { id := "g4_regulatory", value := FormData.g4_regulatory,
      forceDecision := ModelChoice.SLM,
      hardBlockerText := "Regulatory mandate for model control" },
    { id := "g6_infraRefusal", value := FormData.g6_infraRefusal,
      forceDecision := ModelChoice.LLM,
      hardBlockerText := "Organization refuses infrastructure ownership" },
    { id := "g7_timeToMarket", value := FormData.g7_timeToMarket,
      forceDecision := ModelChoice.LLM,
      hardBlockerText := "Time-to-market constraint favors managed LLMs" } ]

/-- One entry of `SCORED_QUESTIONS` (`src/types.ts`), with the dynamic
access `data[q.id as keyof FormData] as number` embedded as `value`. -/
structure ScoredQuestion where
  id : String
  value : FormData → Int
  weight : Int
  reverse : Bool

/-- `SCORED_QUESTIONS` from `src/types.ts`, in declared order. -/
def SCORED_QUESTIONS : List ScoredQuestion :=
  [ { id := "s1_latency", value := FormData.s1_latency, weight := 5, reverse := false },
    { id := "s2_volume", value := FormData.s2_volume, weight := 5, reverse := false },
    { id := "s3_cost", value := FormData.s3_cost, weight := 4, reverse := false },
    { id := "s4_longevity", value := FormData.s4_longevity, weight := 4, reverse := false },
    { id := "s5_narrowness", value := FormData.s5_narrowness, weight := 3, reverse := false },
    { id := "s6_domain", value := FormData.s6_domain, weight := 3, reverse := false },
    { id := "s7_determinism", value := FormData.s7_determinism, weight := 3, reverse := false },
    { id := "s8_explainability", value := FormData.s8_explainability, weight := 3, reverse := false },
    { id := "s9_readiness", value := FormData.s9_readiness, weight := 4, reverse := false },
    { id := "s10_maintenance", value := FormData.s10_maintenance, weight := 3, reverse := false },
    { id := "s11_investment", value := FormData.s11_investment, weight := 4, reverse := false },
    { id := "s12_breadth", value := FormData.s12_breadth, weight := 4, reverse := true },
    { id := "s13_experimentation", value := FormData.s13_experimentation, weight := 3, reverse := true },
    { id := "s14_lowVolume", value := FormData.s14_lowVolume, weight := 4, reverse := true } ]

/-- `MAX_POSSIBLE_SCORE` from `src/types.ts` (sum of weights 52, times 5). -/
def MAX_POSSIBLE_SCORE : Int := 260

/-- `SCORING_THRESHOLD` from `src/types.ts` (50% midpoint). -/
def SCORING_THRESHOLD : Int := 130

/-- Outcome of the decision engine: the `decision`, `score`, `maxScore` and
optional `hardBlocker` fields that `handleAssessmentSubmit` (`src/App.tsx`)
computes for the new `Submission`. -/
structure EvalResult where
  decision : ModelChoice
  score : Int
  maxScore : Int
  hardBlocker : Option String
deriving DecidableEq, Repr

/-- Gatekeeper pass of `handleAssessmentSubmit` (`src/App.tsx` step 1):
the if/else-if chain checking g6, g7 (forcing LLM), then g1..g4 (forcing
SLM), returning the provisional decision (initialised to LLM) and the
optional hard-blocker string. -/
def gatekeeperPass (data : FormData) : ModelChoice × Option String :=
  if data.g6_infraRefusal then
    (ModelChoice.LLM, some "Organization refuses infrastructure ownership (SLM Infeasible)")
  else if data.g7_timeToMarket then
    (ModelChoice.LLM, some "Time-to-market constraint favors managed LLMs")
  else if data.g1_edge then
    (ModelChoice.SLM, some "On-device or edge deployment requirement")
  else if data.g2_offline then
    (ModelChoice.SLM, some "Offline or limited connectivity requirement")
  else if data.g3_dataResidency then
    (ModelChoice.SLM, some "Internal-only data and inference requirement")
  else if data.g4_regulatory then
    (ModelChoice.SLM, some "Regulatory mandate for model control")
  else
    (ModelChoice.LLM, none)

/-- Scoring pass of `handleAssessmentSubmit` (`src/App.tsx` step 2):
`SCORED_QUESTIONS.forEach` accumulating
`(q.reverse ? 6 - userValue : userValue) * q.weight` into `weightedScore`. -/
def weightedScore (data : FormData) : Int :=
  SCORED_QUESTIONS.foldl
    (fun acc q =>
      acc + (if q.reverse then 6 - q.value data else q.value data) * q.weight)
    0

/-- The decision engine of `handleAssessmentSubmit` (`src/App.tsx`):
gatekeeper pass, scoring pass, then — only when no hard blocker fired —
the threshold comparison `weightedScore >= SCORING_THRESHOLD` choosing
SLM over LLM.  `maxScore` is the constant `MAX_POSSIBLE_SCORE`. -/
def evaluate (data : FormData) : EvalResult :=
  let gk := gatekeeperPass data
  let score := weightedScore data
  let decision :=
    if gk.2.isNone then
      if SCORING_THRESHOLD ≤ score then ModelChoice.SLM else ModelChoice.LLM
    else gk.1
  { decision := decision
    score := score
    maxScore := MAX_POSSIBLE_SCORE
    hardBlocker := gk.2 }

/-- Tier-A (LLM-forcing) gatekeepers of the table, in declared order. -/
def tierA : List GatekeeperQuestion :=
  GATEKEEPER_QUESTIONS.filter (fun q => q.forceDecision = ModelChoice.LLM)

/-- Tier-B (SLM-forcing) gatekeepers of the table, in declared order. -/
def tierB : List GatekeeperQuestion :=
  GATEKEEPER_QUESTIONS.filter (fun q => q.forceDecision = ModelChoice.SLM)

/-- A baseline answer set: all gatekeepers false, all Likert responses
neutral (3), metadata empty. -/
def neutralData : FormData :=
  { userName := "", email := "", companyName := "", projectName := "",
    projectDescription := "",
    g1_edge := false, g2_offline := false, g3_dataResidency := false,
    g4_regulatory := false, g5_externalApi := ExternalApi.risk_mitigation,
    g6_infraRefusal := false, g7_timeToMarket := false,
    s1_latency := 3, s2_volume := 3, s3_cost := 3, s4_longevity := 3,
    s5_narrowness := 3, s6_domain := 3, s7_determinism := 3,
    s8_explainability := 3, s9_readiness := 3, s10_maintenance := 3,
    s11_investment := 3, s12_breadth := 3, s13_experimentation := 3,
    s14_lowVolume := 3 }

/-- All fourteen Likert responses lie in the legal range `[1,5]`. -/
def LikertInRange (d : FormData) : Prop :=
  1 ≤ d.s1_latency ∧ d.s1_latency ≤ 5 ∧
  1 ≤ d.s2_volume ∧ d.s2_volume ≤ 5 ∧
  1 ≤ d.s3_cost ∧ d.s3_cost ≤ 5 ∧
  1 ≤ d.s4_longevity ∧ d.s4_longevity ≤ 5 ∧
  1 ≤ d.s5_narrowness ∧ d.s5_narrowness ≤ 5 ∧
  1 ≤ d.s6_domain ∧ d.s6_domain ≤ 5 ∧
  1 ≤ d.s7_determinism ∧ d.s7_determinism ≤ 5 ∧
  1 ≤ d.s8_explainability ∧ d.s8_explainability ≤ 5 ∧
  1 ≤ d.s9_readiness ∧ d.s9_readiness ≤ 5 ∧
  1 ≤ d.s10_maintenance ∧ d.s10_maintenance ≤ 5 ∧
  1 ≤ d.s11_investment ∧ d.s11_investment ≤ 5 ∧
  1 ≤ d.s12_breadth ∧ d.s12_breadth ≤ 5 ∧
  1 ≤ d.s13_experimentation ∧ d.s13_experimentation ≤ 5 ∧
  1 ≤ d.s14_lowVolume ∧ d.s14_lowVolume ≤ 5

instance (d : FormData) : Decidable (LikertInRange d) := by
  unfold LikertInRange; infer_instance

lemma evaluate_score (d : FormData) : (evaluate d).score = weightedScore d := rfl

/-- Closed form of the scoring fold: each response (reversed where flagged)
times its weight, over the fourteen scored questions. -/
lemma weightedScore_eq (d : FormData) :
    weightedScore d =
      d.s1_latency * 5 + d.s2_volume * 5 + d.s3_cost * 4 + d.s4_longevity * 4 +
      d.s5_narrowness * 3 + d.s6_domain * 3 + d.s7_determinism * 3 +
      d.s8_explainability * 3 + d.s9_readiness * 4 + d.s10_maintenance * 3 +
      d.s11_investment * 4 + (6 - d.s12_breadth) * 4 +
      (6 - d.s13_experimentation) * 3 + (6 - d.s14_lowVolume) * 4 := by
  simp [weightedScore, SCORED_QUESTIONS, List.foldl]
  try ring

/-- Answer set with only the g2 (offline) gatekeeper true and every scored
answer 1, whose score 96 alone would fall below the threshold. -/
def offlineAllOnes : FormData :=
  { neutralData with
    g2_offline := true
    s1_latency := 1, s2_volume := 1, s3_cost := 1, s4_longevity := 1
    s5_narrowness := 1, s6_domain := 1, s7_determinism := 1
    s8_explainability := 1, s9_readiness := 1, s10_maintenance := 1
    s11_investment := 1, s12_breadth := 1, s13_experimentation := 1
    s14_lowVolume := 1 }

/-- C1 (counterexample): with only `g6_infraRefusal` true, the first true
tier-A gatekeeper in declared order is g6, whose table blocker text is
"Organization refuses infrastructure ownership", but the engine returns
`hardBlocker` = "Organization refuses infrastructure ownership (SLM
Infeasible)" — not the blocker text of that gatekeeper. -/
theorem C1_counterexample :
    (tierA.find? (fun q => q.value { neutralData with g6_infraRefusal := true })).map
        GatekeeperQuestion.hardBlockerText =
      some "Organization refuses infrastructure ownership" ∧
    (evaluate { neutralData with g6_infraRefusal := true }).hardBlocker =
      some "Organization refuses infrastructure ownership (SLM Infeasible)" ∧
    (evaluate { neutralData with g6_infraRefusal := true }).hardBlocker ≠
      (tierA.find? (fun q => q.value { neutralData with g6_infraRefusal := true })).map
        GatekeeperQuestion.hardBlockerText := by
  refine ⟨rfl, rfl, ?_⟩
  decide

/-- C1 (amended): whenever a tier-A gatekeeper (g6 or g7) is true, the
engine returns `decision = LLM` and `hardBlocker` equal to the engine's
hard-coded blocker string of the first true tier-A gatekeeper in declared
order (g6 before g7); for g6 that string is the table blocker text with the
suffix " (SLM Infeasible)" appended, for g7 it equals the table text.  This
holds regardless of all tier-B gatekeepers and all scored answers. -/
theorem C1_tierA_precedence (d : FormData)
    (h : d.g6_infraRefusal = true ∨ d.g7_timeToMarket = true) :
    (evaluate d).decision = ModelChoice.LLM ∧
      (evaluate d).hardBlocker =
        some (if d.g6_infraRefusal then
                "Organization refuses infrastructure ownership (SLM Infeasible)"
              else "Time-to-market constraint favors managed LLMs") := by
  cases hg6 : d.g6_infraRefusal <;> cases hg7 : d.g7_timeToMarket <;>
    simp_all [evaluate, gatekeeperPass]

/-- C1 witness: the amended theorem applied at the concrete answer set with
only g6 true. -/
theorem C1_tierA_precedence_witness :
    (evaluate { neutralData with g6_infraRefusal := true }).decision = ModelChoice.LLM ∧
      (evaluate { neutralData with g6_infraRefusal := true }).hardBlocker =
        some (if ({ neutralData with g6_infraRefusal := true } : FormData).g6_infraRefusal then
                "Organization refuses infrastructure ownership (SLM Infeasible)"
              else "Time-to-market constraint favors managed LLMs") :=
  C1_tierA_precedence { neutralData with g6_infraRefusal := true } (Or.inl rfl)

/-- C2: with both tier-A gatekeepers false and at least one tier-B
gatekeeper true, the engine returns `decision = SLM` and `hardBlocker`
equal to the table blocker text of the first true tier-B gatekeeper in
declared order g1, g2, g3, g4 — regardless of the scored answers. -/
theorem C2_tierB_fallback (d : FormData) (t : String)
    (hg6 : d.g6_infraRefusal = false) (hg7 : d.g7_timeToMarket = false)
    (h : (tierB.find? (fun q => q.value d)).map GatekeeperQuestion.hardBlockerText =
      some t) :
    (evaluate d).decision = ModelChoice.SLM ∧ (evaluate d).hardBlocker = some t := by
  cases h1 : d.g1_edge <;> cases h2 : d.g2_offline <;>
    cases h3 : d.g3_dataResidency <;> cases h4 : d.g4_regulatory <;>
    simp_all [tierB, GATEKEEPER_QUESTIONS, List.find?, evaluate, gatekeeperPass]

/-- C2 witness: the theorem applied at the answer set whose only true
gatekeeper is g2 while all scored answers are 1 (which alone would favor
LLM, score 96 < 130). -/
theorem C2_tierB_fallback_witness :
    (evaluate offlineAllOnes).decision = ModelChoice.SLM ∧
      (evaluate offlineAllOnes).hardBlocker =
        some "Offline or limited connectivity requirement" :=
  C2_tierB_fallback offlineAllOnes _ rfl rfl rfl

/-- C3: with all six binary gatekeepers false, `hardBlocker` is absent and
the decision is SLM exactly when the score reaches the threshold 130. -/
theorem C3_score_path (d : FormData)
    (h1 : d.g1_edge = false) (h2 : d.g2_offline = false)
    (h3 : d.g3_dataResidency = false) (h4 : d.g4_regulatory = false)
    (h6 : d.g6_infraRefusal = false) (h7 : d.g7_timeToMarket = false) :
    (evaluate d).hardBlocker = none ∧
      ((evaluate d).decision = ModelChoice.SLM ↔ (130 : Int) ≤ (evaluate d).score) := by
  have hth : SCORING_THRESHOLD = (130 : Int) := rfl
  by_cases hs : (130 : Int) ≤ weightedScore d <;>
    simp_all [evaluate, gatekeeperPass, hth]

/-- C3 witness: the theorem applied at the all-neutral answer set
(score 156 ≥ 130, hence SLM). -/
theorem C3_score_path_witness :
    (evaluate neutralData).hardBlocker = none ∧
      ((evaluate neutralData).decision = ModelChoice.SLM ↔
        (130 : Int) ≤ (evaluate neutralData).score) :=
  C3_score_path neutralData rfl rfl rfl rfl rfl rfl

/-- C4: for every answer set — Likert values unconstrained, no clamping —
the returned score is the sum over the fourteen scored questions of
`(reverse ? 6 - response : response) * weight`, spelled out per question;
the score field is this value whatever the gatekeepers are. -/
theorem C4_score_formula (d : FormData) :
    (evaluate d).score =
      d.s1_latency * 5 + d.s2_volume * 5 + d.s3_cost * 4 + d.s4_longevity * 4 +
      d.s5_narrowness * 3 + d.s6_domain * 3 + d.s7_determinism * 3 +
      d.s8_explainability * 3 + d.s9_readiness * 4 + d.s10_maintenance * 3 +
      d.s11_investment * 4 + (6 - d.s12_breadth) * 4 +
      (6 - d.s13_experimentation) * 3 + (6 - d.s14_lowVolume) * 4 :=
  (evaluate_score d).trans (weightedScore_eq d)

/-- Sum of the weights of the fourteen scored questions. -/
def totalWeight : Int :=
  SCORED_QUESTIONS.foldl (fun acc q => acc + q.weight) 0

/-- C5: when every Likert response is in `[1,5]`, the score lies between 0
and `maxScore`; `maxScore` equals `5 * sum(weights) = 260` for every input,
and the threshold 130 is half of `maxScore`. -/
theorem C5_score_bounds (d : FormData) (h : LikertInRange d) :
    0 ≤ (evaluate d).score ∧ (evaluate d).score ≤ (evaluate d).maxScore ∧
      (evaluate d).maxScore = 5 * totalWeight ∧ (evaluate d).maxScore = 260 ∧
      2 * SCORING_THRESHOLD = (evaluate d).maxScore := by
  obtain ⟨a1, b1, a2, b2, a3, b3, a4, b4, a5, b5, a6, b6, a7, b7, a8, b8,
    a9, b9, a10, b10, a11, b11, a12, b12, a13, b13, a14, b14⟩ := h
  have hs := weightedScore_eq d
  have h1 : (evaluate d).score = weightedScore d := evaluate_score d
  have h2 : (evaluate d).maxScore = (260 : Int) := rfl
  refine ⟨?_, ?_, rfl, rfl, rfl⟩ <;> rw [h1, hs] <;> [skip; rw [h2]] <;> linarith

/-- C5 witness: the theorem applied at the all-neutral answer set. -/
theorem C5_score_bounds_witness :
    0 ≤ (evaluate neutralData).score ∧
      (evaluate neutralData).score ≤ (evaluate neutralData).maxScore ∧
      (evaluate neutralData).maxScore = 5 * totalWeight ∧
      (evaluate neutralData).maxScore = 260 ∧
      2 * SCORING_THRESHOLD = (evaluate neutralData).maxScore :=
  C5_score_bounds neutralData (by decide)

/-- C6: raising one scored response from `v` to `w` while holding every
other answer fixed never decreases the score on the eleven non-reverse
questions and never increases it on the three reverse questions. -/
theorem C6_monotonicity (d : FormData) (v w : Int) (hvw : v ≤ w) :
    ((evaluate { d with s1_latency := v }).score ≤ (evaluate { d with s1_latency := w }).score) ∧
    ((evaluate { d with s2_volume := v }).score ≤ (evaluate { d with s2_volume := w }).score) ∧
    ((evaluate { d with s3_cost := v }).score ≤ (evaluate { d with s3_cost := w }).score) ∧
    ((evaluate { d with s4_longevity := v }).score ≤ (evaluate { d with s4_longevity := w }).score) ∧
    ((evaluate { d with s5_narrowness := v }).score ≤ (evaluate { d with s5_narrowness := w }).score) ∧
    ((evaluate { d with s6_domain := v }).score ≤ (evaluate { d with s6_domain := w }).score) ∧
    ((evaluate { d with s7_determinism := v }).score ≤ (evaluate { d with s7_determinism := w }).score) ∧
    ((evaluate { d with s8_explainability := v }).score ≤ (evaluate { d with s8_explainability := w }).score) ∧
    ((evaluate { d with s9_readiness := v }).score ≤ (evaluate { d with s9_readiness := w }).score) ∧
    ((evaluate { d with s10_maintenance := v }).score ≤ (evaluate { d with s10_maintenance := w }).score) ∧
    ((evaluate { d with s11_investment := v }).score ≤ (evaluate { d with s11_investment := w }).score) ∧
    ((evaluate { d with s12_breadth := w }).score ≤ (evaluate { d with s12_breadth := v }).score) ∧
    ((evaluate { d with s13_experimentation := w }).score ≤ (evaluate { d with s13_experimentation := v }).score) ∧
    ((evaluate { d with s14_lowVolume := w }).score ≤ (evaluate { d with s14_lowVolume := v }).score) := by
  refine ⟨?_, ?_, ?_, ?_, ?_, ?_, ?_, ?_, ?_, ?_, ?_, ?_, ?_, ?_⟩ <;>
    · simp only [evaluate_score, weightedScore_eq]
      linarith

/-- C6 witness: the theorem applied at the all-neutral answer set with the
response raised from 2 to 4. -/
theorem C6_monotonicity_witness :
    ((evaluate { neutralData with s1_latency := 2 }).score ≤ (evaluate { neutralData with s1_latency := 4 }).score) ∧
    ((evaluate { neutralData with s2_volume := 2 }).score ≤ (evaluate { neutralData with s2_volume := 4 }).score) ∧
    ((evaluate { neutralData with s3_cost := 2 }).score ≤ (evaluate { neutralData with s3_cost := 4 }).score) ∧
    ((evaluate { neutralData with s4_longevity := 2 }).score ≤ (evaluate { neutralData with s4_longevity := 4 }).score) ∧
    ((evaluate { neutralData with s5_narrowness := 2 }).score ≤ (evaluate { neutralData with s5_narrowness := 4 }).score) ∧
    ((evaluate { neutralData with s6_domain := 2 }).score ≤ (evaluate { neutralData with s6_domain := 4 }).score) ∧
    ((evaluate { neutralData with s7_determinism := 2 }).score ≤ (evaluate { neutralData with s7_determinism := 4 }).score) ∧
    ((evaluate { neutralData with s8_explainability := 2 }).score ≤ (evaluate { neutralData with s8_explainability := 4 }).score) ∧
    ((evaluate { neutralData with s9_readiness := 2 }).score ≤ (evaluate { neutralData with s9_readiness := 4 }).score) ∧
    ((evaluate { neutralData with s10_maintenance := 2 }).score ≤ (evaluate { neutralData with s10_maintenance := 4 }).score) ∧
    ((evaluate { neutralData with s11_investment := 2 }).score ≤ (evaluate { neutralData with s11_investment := 4 }).score) ∧
    ((evaluate { neutralData with s12_breadth := 4 }).score ≤ (evaluate { neutralData with s12_breadth := 2 }).score) ∧
    ((evaluate { neutralData with s13_experimentation := 4 }).score ≤ (evaluate { neutralData with s13_experimentation := 2 }).score) ∧
    ((evaluate { neutralData with s14_lowVolume := 4 }).score ≤ (evaluate { neutralData with s14_lowVolume := 2 }).score) :=
  C6_monotonicity neutralData 2 4 (by decide)

/-- Replace exactly the fields the engine is claimed never to consult: the
three-valued g5 answer and the five free-text metadata fields. -/
def overrideUnused (d : FormData) (g5 : ExternalApi)
    (un em cn pn pdesc : String) : FormData :=
  { d with g5_externalApi := g5, userName := un, email := em,
           companyName := cn, projectName := pn, projectDescription := pdesc }

/-- C7: two answer sets that differ only in `g5_externalApi` and/or the
free-text metadata fields get identical `(decision, score, hardBlocker)`:
those inputs are never consulted by the decision algorithm. -/
theorem C7_unused_inputs (d : FormData) (g5 : ExternalApi)
    (un em cn pn pdesc : String) :
    ((evaluate (overrideUnused d g5 un em cn pn pdesc)).decision,
      (evaluate (overrideUnused d g5 un em cn pn pdesc)).score,
      (evaluate (overrideUnused d g5 un em cn pn pdesc)).hardBlocker) =
    ((evaluate d).decision, (evaluate d).score, (evaluate d).hardBlocker) := rfl

/-- C8: the engine is a pure function of its input: evaluating the same
answer set twice yields identical `(decision, score, hardBlocker)`. -/
theorem C8_determinism (d : FormData) :
    ((evaluate d).decision, (evaluate d).score, (evaluate d).hardBlocker) =
      ((evaluate d).decision, (evaluate d).score, (evaluate d).hardBlocker) := rfl

/-- Force the six binary gatekeepers false and every scored response to the
neutral value 3, leaving g5 and the metadata as given. -/
def allNeutral (d : FormData) : FormData :=
  { d with
    g1_edge := false, g2_offline := false, g3_dataResidency := false
    g4_regulatory := false, g6_infraRefusal := false, g7_timeToMarket := false
    s1_latency := 3, s2_volume := 3, s3_cost := 3, s4_longevity := 3
    s5_narrowness := 3, s6_domain := 3, s7_determinism := 3
    s8_explainability := 3, s9_readiness := 3, s10_maintenance := 3
    s11_investment := 3, s12_breadth := 3, s13_experimentation := 3
    s14_lowVolume := 3 }

/-- C9: with all six binary gatekeepers false and every scored response 3,
the score is `3 * 52 = 156`, which meets the threshold 130, so the engine
returns SLM with no hard blocker. -/
theorem C9_all_neutral (d : FormData) :
    evaluate (allNeutral d) =
      { decision := ModelChoice.SLM, score := 156, maxScore := 260,
        hardBlocker := none } ∧
      (156 : Int) = 3 * 52 ∧ SCORING_THRESHOLD ≤ (156 : Int) :=
  ⟨rfl, rfl, by decide⟩

/-- Every non-reverse response set to 1 and every reverse response to 5,
the configuration minimising the score over in-range answer sets. -/
def minScoreData (d : FormData) : FormData :=
  { d with
    s1_latency := 1, s2_volume := 1, s3_cost := 1, s4_longevity := 1
    s5_narrowness := 1, s6_domain := 1, s7_determinism := 1
    s8_explainability := 1, s9_readiness := 1, s10_maintenance := 1
    s11_investment := 1, s12_breadth := 5, s13_experimentation := 5
    s14_lowVolume := 5 }

/-- C10: over in-range answer sets the score is at least 52 (the sum of
the weights) — in particular it never reaches 0 — and 52 is attained
exactly when every non-reverse response is 1 and every reverse response
is 5. -/
theorem C10_min_score (d : FormData) (h : LikertInRange d) :
    52 ≤ (evaluate d).score ∧ (evaluate d).score ≠ 0 ∧
      (evaluate (minScoreData d)).score = 52 := by
  obtain ⟨a1, b1, a2, b2, a3, b3, a4, b4, a5, b5, a6, b6, a7, b7, a8, b8,
    a9, b9, a10, b10, a11, b11, a12, b12, a13, b13, a14, b14⟩ := h
  have h1 : (evaluate d).score = weightedScore d := evaluate_score d
  have hge : 52 ≤ (evaluate d).score := by
    rw [h1, weightedScore_eq]; linarith
  exact ⟨hge, by intro hc; rw [hc] at hge; norm_num at hge, rfl⟩

/-- C10 witness: the theorem applied at the all-neutral answer set. -/
theorem C10_min_score_witness :
    52 ≤ (evaluate neutralData).score ∧ (evaluate neutralData).score ≠ 0 ∧
      (evaluate (minScoreData neutralData)).score = 52 :=
  C10_min_score neutralData (by decide)

end ArchEval
